import Mathlib

/-!
Shallow embedding of the Turf booking backend: the JSON record store and
booking engine (`database.py`), the HTTP boundary handlers (`app.py`), and
the conversational dispatcher (`agent.py`).

Python dicts become structures; the JSON file is modelled as a second copy
of the data (`disk`) which `save_data` overwrites; `datetime.now()` becomes
an explicit `now`/`today`/`tomorrow` string parameter; the external Groq
completion call becomes a function parameter returning `Except String String`.
-/

/-- A facility record, mirroring the turf dicts stored in `data["turfs"]`. -/
structure Turf where
  id : String
  name : String
  location : String
  description : String
  amenities : List String
  size : String
  surface_type : String
  price_per_hour : Nat
  available_hours : List String
  images : List String
  rating : Float
  total_reviews : Nat
deriving Repr

/-- A booking record, mirroring the dicts appended to `data["bookings"]`. -/
structure Booking where
  booking_id : String
  turf_id : String
  customer_name : String
  customer_phone : String
  customer_email : String
  date : String
  time_slot : String
  duration : Nat
  status : String
  created_at : String
  total_amount : Nat
deriving Repr, DecidableEq

/-- The input dict accepted by `create_booking`: required keys are plain
fields, keys read with `booking_data.get(key, default)` are `Option`s. -/
structure BookingData where
  turf_id : String
  customer_name : String
  customer_phone : String
  customer_email : Option String
  date : String
  time_slot : String
  duration : Option Nat
  total_amount : Option Nat
deriving Repr

/-- The in-memory `self.data` dict: two top-level collections. -/
structure DBData where
  turfs : List Turf
  bookings : List Booking

/-- The full database state: `data` is the in-memory mirror, `disk` the
persisted JSON document that `save_data` overwrites wholesale. -/
structure DBState where
  data : DBData
  disk : DBData

/-- `save_data`: rewrite the durable document from the in-memory data. -/
def save_data (st : DBState) : DBState :=
  { st with disk := st.data }

/-- `get_all_turfs`. -/
def get_all_turfs (db : DBData) : List Turf :=
  db.turfs

/-- `get_turf_by_id`: linear scan returning the first turf whose `id`
matches, `None` otherwise. -/
def get_turf_by_id (db : DBData) (turf_id : String) : Option Turf :=
  db.turfs.find? (fun t => t.id == turf_id)

/-- `get_bookings_for_date`: every booking (any status) matching the given
turf and date, in stored order. -/
def get_bookings_for_date (db : DBData) (turf_id date : String) : List Booking :=
  db.bookings.filter (fun b => b.turf_id == turf_id && b.date == date)

/-- The loop body of `check_availability`: return `False` as soon as a
booking on this slot with status `"confirmed"` is seen, else `True`. -/
def availLoop (time_slot : String) : List Booking → Bool
  | [] => true
  | b :: rest =>
    if b.time_slot == time_slot && b.status == "confirmed" then false
    else availLoop time_slot rest

/-- `check_availability`. -/
def check_availability (db : DBData) (turf_id date time_slot : String) : Bool :=
  availLoop time_slot (get_bookings_for_date db turf_id date)

/-- Zero-pad a natural number to at least four digits, as Python's
`f"{n:04d}"` does for non-negative `n`. -/
def pad4 (n : Nat) : String :=
  let s := toString n
  String.mk (List.replicate (4 - s.length) '0') ++ s

/-- The booking id `f"BK{n:04d}"`. -/
def mkBookingId (n : Nat) : String :=
  "BK" ++ pad4 n

/-- `create_booking`: build the record (id from the current total booking
count + 1, status `"confirmed"`, defaults for the optional keys), append it,
persist, and return it. -/
def create_booking (st : DBState) (booking_data : BookingData) (now : String) :
    Booking × DBState :=
  let booking_id := mkBookingId (st.data.bookings.length + 1)
  let booking : Booking :=
    { booking_id := booking_id
      turf_id := booking_data.turf_id
      customer_name := booking_data.customer_name
      customer_phone := booking_data.customer_phone
      customer_email := booking_data.customer_email.getD ""
      date := booking_data.date
      time_slot := booking_data.time_slot
      duration := booking_data.duration.getD 1
      status := "confirmed"
      created_at := now
      total_amount := booking_data.total_amount.getD 0 }
  let data' : DBData := { st.data with bookings := st.data.bookings ++ [booking] }
  (booking, save_data { st with data := data' })

/-- The loop of `cancel_booking`: find the first booking with the given id,
flip its status to `"cancelled"`; `none` when no booking matches. -/
def cancelFirst (booking_id : String) : List Booking → Option (List Booking)
  | [] => none
  | b :: rest =>
    if b.booking_id == booking_id then
      some ({ b with status := "cancelled" } :: rest)
    else
      (cancelFirst booking_id rest).map (b :: ·)

/-- `cancel_booking`: mutate the first matching booking and persist,
returning `true`; return `false` (touching nothing) when the id is absent. -/
def cancel_booking (st : DBState) (booking_id : String) : Bool × DBState :=
  match cancelFirst booking_id st.data.bookings with
  | some bs => (true, save_data { st with data := { st.data with bookings := bs } })
  | none => (false, st)

/-- `get_booking_by_id`. -/
def get_booking_by_id (db : DBData) (booking_id : String) : Option Booking :=
  db.bookings.find? (fun b => b.booking_id == booking_id)

/-- `get_all_bookings`. -/
def get_all_bookings (db : DBData) : List Booking :=
  db.bookings

/-- The single seeded facility from `initialize_dummy_turf`. -/
def dummyTurf : Turf :=
  { id := "turf_001"
    name := "Green Valley Sports Arena"
    location := "Downtown, Sector 21, Main Street"
    description := "Premium artificial turf with floodlights, perfect for football, cricket, and other sports"
    amenities := ["Floodlights", "Changing Rooms", "Parking", "Water Facility", "First Aid"]
    size := "100x60 feet"
    surface_type := "Artificial Grass"
    price_per_hour := 1500
    available_hours := ["06:00", "07:00", "08:00", "09:00", "10:00", "11:00",
                        "12:00", "13:00", "14:00", "15:00", "16:00", "17:00",
                        "18:00", "19:00", "20:00", "21:00", "22:00"]
    images := ["turf1.jpg", "turf2.jpg"]
    rating := 4.5
    total_reviews := 128 }

/-- The state after `TurfBookingDatabase()` on a fresh store followed by
`initialize_dummy_turf`: the dummy turf seeded and persisted, no bookings. -/
def initialState : DBState :=
  save_data { data := { turfs := [dummyTurf], bookings := [] }
              disk := { turfs := [], bookings := [] } }

/-! ## HTTP boundary (`app.py`) -/

/-- Confirmed slots for a turf and date, as computed by both the
`/api/availability` route and the agent's availability report:
`[b["time_slot"] for b in bookings if b["status"] == "confirmed"]`. -/
def booked_slots (db : DBData) (turf_id date : String) : List String :=
  ((get_bookings_for_date db turf_id date).filter
    (fun b => b.status == "confirmed")).map (fun b => b.time_slot)

/-- `[slot for slot in turf["available_hours"] if slot not in booked_slots]`. -/
def available_slots (turf : Turf) (db : DBData) (date : String) : List String :=
  turf.available_hours.filter (fun slot => !((booked_slots db turf.id date).contains slot))

/-- The `/api/book` route: reject when `check_availability` is false or the
turf is unknown (state untouched); otherwise compute
`total_amount = price_per_hour * duration` and call `create_booking`.
Field presence validation is type-level here. -/
def api_book (st : DBState) (data : BookingData) (now : String) : DBState :=
  if check_availability st.data data.turf_id data.date data.time_slot then
    match get_turf_by_id st.data data.turf_id with
    | some turf =>
      let duration := data.duration.getD 1
      (create_booking st { data with total_amount := some (turf.price_per_hour * duration) } now).2
    | none => st
  else st

/-- A raw Engine call: `create_booking` or `cancel_booking` on the shared
database, with the wall-clock timestamp made explicit. -/
inductive EOp where
  | create (data : BookingData) (now : String)
  | cancel (booking_id : String)

/-- Run a sequence of raw Engine calls. -/
def erun (st : DBState) : List EOp → DBState
  | [] => st
  | EOp.create d now :: ops => erun (create_booking st d now).2 ops
  | EOp.cancel id :: ops => erun (cancel_booking st id).2 ops

/-- A mutating call as admitted by the HTTP boundary: `/api/book` (with its
availability check) or `/api/cancel`. -/
inductive BOp where
  | book (data : BookingData) (now : String)
  | cancel (booking_id : String)

/-- Run a sequence of boundary calls. -/
def brun (st : DBState) : List BOp → DBState
  | [] => st
  | BOp.book d now :: ops => brun (api_book st d now) ops
  | BOp.cancel id :: ops => brun (cancel_booking st id).2 ops

/-- Two bookings clash when they claim the same `(turf_id, date, time_slot)`
triple and both are `"confirmed"`. -/
def SameSlotConflict (a b : Booking) : Prop :=
  a.turf_id = b.turf_id ∧ a.date = b.date ∧ a.time_slot = b.time_slot ∧
  a.status = "confirmed" ∧ b.status = "confirmed"

/-- The slot-uniqueness invariant: no two distinct bookings in the store
clash. Cancelled bookings never clash, so they are exempt. -/
def NoDoubleConfirmed (bs : List Booking) : Prop :=
  List.Pairwise (fun a b => ¬ SameSlotConflict a b) bs

/-- The id-assignment invariant: the booking at position `i` (0-based) holds
id `BK` + zero-padded `i + 1`. -/
def idsNumbered (bs : List Booking) : Prop :=
  bs.map (fun b => b.booking_id) = (List.range bs.length).map (fun i => mkBookingId (i + 1))

/-! ## Conversation dispatcher (`agent.py`) -/

/-- One transcript turn. -/
structure Msg where
  role : String
  content : String
deriving Repr, DecidableEq

/-- Dispatcher state: the shared database plus `self.conversation_history`. -/
structure AgentState where
  db : DBState
  conversation_history : List Msg

/-- Python's `l[-n:]`: the last `n` elements (all of them when fewer). -/
def lastN (n : Nat) (l : List α) : List α :=
  l.drop (l.length - n)

/-- `Python`'s `str.lower()` on the character list (ASCII letters, which
covers every intent pattern). -/
def toLowerStr (s : String) : String :=
  String.mk (s.data.map Char.toLower)

/-- Whether `pat` starts the list `l`. -/
def startsWithList : List Char → List Char → Bool
  | [], _ => true
  | _ :: _, [] => false
  | a :: pat, b :: l => a == b && startsWithList pat l

/-- Whether `pat` occurs contiguously inside `l`. -/
def occursInList (pat : List Char) : List Char → Bool
  | [] => startsWithList pat []
  | b :: l => startsWithList pat (b :: l) || occursInList pat l

/-- Python's `pat in s` substring test. -/
def containsSub (pat s : String) : Bool :=
  occursInList pat.data s.data

/-- One day's section of the availability report. -/
def availability_day_info (db : DBData) (turf : Turf) (date_label date : String) : String :=
  let slots := available_slots turf db date
  let head := "**" ++ date_label ++ " (" ++ date ++ "):**\n"
  if slots != [] then
    let line := "Available slots: " ++ String.intercalate ", " (slots.take 10)
    let line := if slots.length > 10 then
        line ++ " and " ++ toString (slots.length - 10) ++ " more"
      else line
    head ++ line ++ "\n\n"
  else head ++ "No slots available\n\n"

/-- `_get_availability_info`, with `datetime.now()` abstracted into the
`today`/`tomorrow` date strings. -/
def get_availability_info (db : DBData) (today tomorrow : String) : String :=
  match get_all_turfs db with
  | [] => "No turfs available at the moment."
  | turf :: _ =>
    "**" ++ turf.name ++ "** - Availability Status\n\n"
    ++ "Price: â‚¹" ++ toString turf.price_per_hour ++ "/hour\n\n"
    ++ availability_day_info db turf "Today" today
    ++ availability_day_info db turf "Tomorrow" tomorrow

/-- One booking's block in the bookings report. -/
def booking_line (b : Booking) : String :=
  "ðŸŽ« **Booking ID:** " ++ b.booking_id ++ "\n"
  ++ "   Customer: " ++ b.customer_name ++ "\n"
  ++ "   Date: " ++ b.date ++ " at " ++ b.time_slot ++ "\n"
  ++ "   Amount: â‚¹" ++ toString b.total_amount ++ "\n\n"

/-- `_get_all_bookings_info`. -/
def get_all_bookings_info (db : DBData) : String :=
  let bookings := get_all_bookings db
  if bookings.isEmpty then "No bookings found."
  else
    let confirmed_bookings := bookings.filter (fun b => b.status == "confirmed")
    if confirmed_bookings.isEmpty then "No confirmed bookings at the moment."
    else "**Current Bookings:**\n\n"
      ++ String.join ((lastN 10 confirmed_bookings).map booking_line)

/-- `_handle_special_commands`: case-insensitive substring dispatch on the
raw message; `none` plays Python's `None` fall-through. -/
def handle_special_commands (db : DBData) (today tomorrow : String) (message : String) :
    Option String :=
  let message_lower := toLowerStr message
  if containsSub "check availability" message_lower
      || containsSub "available slots" message_lower then
    some (get_availability_info db today tomorrow)
  else if containsSub "show bookings" message_lower
      || containsSub "view bookings" message_lower
      || containsSub "my bookings" message_lower then
    some (get_all_bookings_info db)
  else
    none

/-- Python truthiness of `_handle_special_commands`'s result as tested by
`if response:` — present and nonempty. -/
def truthyReply : Option String → Bool
  | none => false
  | some r => r != ""

/-- JSON string literal (escaping elided; display text only). -/
def jsonStr (s : String) : String :=
  "\"" ++ s ++ "\""

/-- JSON array of strings. -/
def jsonStrList (l : List String) : String :=
  "[" ++ String.intercalate ", " (l.map jsonStr) ++ "]"

/-- One turf rendered for `json.dumps(turfs, indent=2)` (layout simplified;
no theorem inspects this text). -/
def turfJson (t : Turf) : String :=
  "\x7b" ++ String.intercalate ", "
    [jsonStr "id" ++ ": " ++ jsonStr t.id,
     jsonStr "name" ++ ": " ++ jsonStr t.name,
     jsonStr "location" ++ ": " ++ jsonStr t.location,
     jsonStr "description" ++ ": " ++ jsonStr t.description,
     jsonStr "amenities" ++ ": " ++ jsonStrList t.amenities,
     jsonStr "size" ++ ": " ++ jsonStr t.size,
     jsonStr "surface_type" ++ ": " ++ jsonStr t.surface_type,
     jsonStr "price_per_hour" ++ ": " ++ toString t.price_per_hour,
     jsonStr "available_hours" ++ ": " ++ jsonStrList t.available_hours,
     jsonStr "images" ++ ": " ++ jsonStrList t.images,
     jsonStr "rating" ++ ": " ++ toString t.rating,
     jsonStr "total_reviews" ++ ": " ++ toString t.total_reviews] ++ "\x7d"

/-- `get_system_prompt`: the behavioural instructions with the current turf
collection serialised in the middle. -/
def get_system_prompt (db : DBData) : String :=
  "You are a professional and friendly turf booking assistant for sports facility reservations. \nYour name is \"BookMyTurf Assistant\" and you help customers book turfs for sports activities.\n\nAvailable Turfs:\n"
  ++ "[" ++ String.intercalate ",\n" ((get_all_turfs db).map turfJson) ++ "]"
  ++ "\n\nYour capabilities:\n1. Provide information about available turfs, their amenities, and pricing\n2. Help customers book time slots for their preferred dates\n3. Check availability for specific dates and times\n4. Handle booking cancellations\n5. Answer questions about facilities, pricing, and policies\n\nGuidelines:\n- Be friendly, professional, and helpful\n- Ask for required information politely: customer name, phone number, preferred date, and time slot\n- Confirm all details before making a booking\n- Provide clear information about pricing and availability\n- Format dates as YYYY-MM-DD and times in 24-hour format (HH:00)\n- If a slot is unavailable, suggest alternative times\n- Always confirm booking details with booking ID\n\nWhen a customer wants to book:\n1. Ask for their name\n2. Ask for their phone number\n3. Ask for preferred date (today or future dates)\n4. Ask for preferred time slot\n5. Confirm availability\n6. Confirm booking details\n7. Create the booking\n\nFor cancellations:\n- Ask for the booking ID\n- Confirm cancellation\n\nAlways be conversational and natural in your responses."

/-- The outbound context: the system instruction followed by the last 10
transcript turns. -/
def build_context (ast : AgentState) : List Msg :=
  { role := "system", content := get_system_prompt ast.db.data } :: lastN 10 ast.conversation_history

/-- `process_message`: append the user turn; answer deterministically when a
special command fires (and the reply is truthy); otherwise call the external
completion service `llm`, absorbing any error into an apology reply. -/
def process_message (ast : AgentState) (llm : List Msg → Except String String)
    (today tomorrow : String) (user_message : String) : String × AgentState :=
  let ast1 : AgentState := { ast with
    conversation_history :=
      ast.conversation_history ++ [{ role := "user", content := user_message }] }
  let response := handle_special_commands ast1.db.data today tomorrow user_message
  if truthyReply response then
    let r := response.getD ""
    (r, { ast1 with conversation_history :=
            ast1.conversation_history ++ [{ role := "assistant", content := r }] })
  else
    match llm (build_context ast1) with
    | Except.ok ai =>
      (ai, { ast1 with conversation_history :=
               ast1.conversation_history ++ [{ role := "assistant", content := ai }] })
    | Except.error e =>
      let error_message := "I apologize, but I encountered an error: " ++ e ++ ". Please try again."
      (error_message, { ast1 with conversation_history :=
          ast1.conversation_history ++ [{ role := "assistant", content := error_message }] })

/-! ## Sample data for concrete evaluations -/

/-- A well-formed booking request for the seeded turf. -/
def sampleBookingData : BookingData :=
  { turf_id := "turf_001"
    customer_name := "Asha"
    customer_phone := "9999999999"
    customer_email := none
    date := "2024-06-01"
    time_slot := "18:00"
    duration := none
    total_amount := none }

/-- The store after one booking (`BK0001`, confirmed). -/
def sampleState1 : DBState :=
  (create_booking initialState sampleBookingData "2024-05-31 10:00:00").2

/-- The store after that booking has been cancelled. -/
def sampleState2 : DBState :=
  (cancel_booking sampleState1 "BK0001").2

/-- A hand-written store (such as a user-edited `bookings.json`) holding a
single cancelled booking whose id is `BK0002`. -/
def oddBooking : Booking :=
  { booking_id := "BK0002"
    turf_id := "turf_001"
    customer_name := "Zed"
    customer_phone := "1234567890"
    customer_email := ""
    date := "2024-06-01"
    time_slot := "18:00"
    duration := 1
    status := "cancelled"
    created_at := "2024-05-30 09:00:00"
    total_amount := 0 }

/-- A loaded state whose bookings list is exactly `[oddBooking]`. -/
def oddState : DBState :=
  { data := { turfs := [dummyTurf], bookings := [oddBooking] }
    disk := { turfs := [dummyTurf], bookings := [oddBooking] } }

/-- A fresh dispatcher over the seeded store. -/
def sampleAgentState : AgentState :=
  { db := initialState, conversation_history := [] }

/-- An external completion service that always answers. -/
def llmOk : List Msg → Except String String :=
  fun _ => Except.ok "Sure, how can I help?"

/-- An external completion service that always fails. -/
def llmErr : List Msg → Except String String :=
  fun _ => Except.error "boom"

/-! ## Helper lemmas -/

theorem availLoop_true_iff (slot : String) (l : List Booking) :
    availLoop slot l = true ↔ ∀ b ∈ l, ¬(b.time_slot = slot ∧ b.status = "confirmed") := by
  induction l with
  | nil => simp [availLoop]
  | cons b rest ih =>
    simp only [availLoop, List.mem_cons]
    by_cases h : b.time_slot = slot ∧ b.status = "confirmed"
    · obtain ⟨h1, h2⟩ := h
      simp [h1, h2]
    · have hb : (b.time_slot == slot && b.status == "confirmed") = false := by
        rcases not_and_or.mp h with h1 | h2
        · simp [beq_eq_false_iff_ne.mpr h1]
        · simp [beq_eq_false_iff_ne.mpr h2]
      simp [hb, ih]
      exact fun _ h1 h2 => h ⟨h1, h2⟩

theorem check_availability_iff (db : DBData) (turf_id date time_slot : String) :
    check_availability db turf_id date time_slot = true ↔
      ∀ b ∈ db.bookings, ¬(b.turf_id = turf_id ∧ b.date = date ∧
        b.time_slot = time_slot ∧ b.status = "confirmed") := by
  unfold check_availability get_bookings_for_date
  rw [availLoop_true_iff]
  constructor
  · intro hall b hb hcontra
    obtain ⟨ht, hd, hs, hc⟩ := hcontra
    exact hall b (List.mem_filter.mpr ⟨hb, by simp [ht, hd]⟩) ⟨hs, hc⟩
  · intro hall b hb hcontra
    obtain ⟨hb', hmatch⟩ := List.mem_filter.mp hb
    have ht : b.turf_id = turf_id := by
      have := (Bool.and_eq_true _ _).mp hmatch
      exact beq_iff_eq.mp this.1
    have hd : b.date = date := by
      have := (Bool.and_eq_true _ _).mp hmatch
      exact beq_iff_eq.mp this.2
    exact hall b hb' ⟨ht, hd, hcontra.1, hcontra.2⟩

theorem cancelFirst_none_iff (booking_id : String) (bs : List Booking) :
    cancelFirst booking_id bs = none ↔ ∀ b ∈ bs, b.booking_id ≠ booking_id := by
  induction bs with
  | nil => simp [cancelFirst]
  | cons b rest ih =>
    simp only [cancelFirst, List.mem_cons]
    by_cases h : b.booking_id = booking_id
    · simp [h]
    · rw [if_neg (by simpa using h)]
      simp only [Option.map_eq_none', ih]
      constructor
      · rintro hall x (rfl | hx)
        · exact h
        · exact hall x hx
      · intro hall x hx
        exact hall x (Or.inr hx)

theorem cancelFirst_some (booking_id : String) (bs bs' : List Booking)
    (h : cancelFirst booking_id bs = some bs') :
    ∃ l1 b0 l2, bs = l1 ++ b0 :: l2 ∧ (∀ x ∈ l1, x.booking_id ≠ booking_id) ∧
      b0.booking_id = booking_id ∧
      bs' = l1 ++ { b0 with status := "cancelled" } :: l2 := by
  induction bs generalizing bs' with
  | nil => simp [cancelFirst] at h
  | cons b rest ih =>
    simp only [cancelFirst] at h
    by_cases hb : b.booking_id = booking_id
    · rw [if_pos (by simpa using hb)] at h
      refine ⟨[], b, rest, by simp, by simp, hb, ?_⟩
      simpa using h.symm
    · rw [if_neg (by simpa using hb)] at h
      obtain ⟨bs'', hrec, heq⟩ := Option.map_eq_some'.mp h
      obtain ⟨l1, b0, l2, hbs, hl1, hb0, hbs'⟩ := ih bs'' hrec
      refine ⟨b :: l1, b0, l2, by simp [hbs], ?_, hb0, ?_⟩
      · intro x hx
        rcases List.mem_cons.mp hx with rfl | hx'
        · exact hb
        · exact hl1 x hx'
      · rw [← heq]
        simp [hbs']

/-! ## Claims -/

/-- C2: `check_availability db t d s` is true iff no booking with status
`"confirmed"` exists for the exact `(turf_id, date, time_slot)` triple —
cancelled bookings for the triple do not make it false — and the result never
depends on the turfs collection (hence not on `available_hours`). -/
theorem C2_check_availability_iff_no_confirmed :
    ∀ (db : DBData) (turf_id date time_slot : String),
      (check_availability db turf_id date time_slot = true ↔
        ∀ b ∈ db.bookings, ¬(b.turf_id = turf_id ∧ b.date = date ∧
          b.time_slot = time_slot ∧ b.status = "confirmed")) ∧
      (∀ (turfs1 turfs2 : List Turf) (bookings : List Booking),
        check_availability ⟨turfs1, bookings⟩ turf_id date time_slot =
          check_availability ⟨turfs2, bookings⟩ turf_id date time_slot) :=
  fun db t d s => ⟨check_availability_iff db t d s, fun _ _ _ => rfl⟩

/-- C5: `create_booking` never rejects: for every input and every prior state
(including one where the triple already has a confirmed booking) it appends
exactly one record at the end of the collection and persists; the record has
status `"confirmed"`, `created_at = now`, and defaults `duration = 1`,
`total_amount = 0`, `customer_email = ""` when the optional keys are absent. -/
theorem C5_create_booking_unconditional_append :
    ∀ (st : DBState) (data : BookingData) (now : String),
      (create_booking st data now).2.data.bookings
          = st.data.bookings ++ [(create_booking st data now).1] ∧
      (create_booking st data now).2.data.turfs = st.data.turfs ∧
      (create_booking st data now).2.disk = (create_booking st data now).2.data ∧
      (create_booking st data now).1.status = "confirmed" ∧
      (create_booking st data now).1.duration = data.duration.getD 1 ∧
      (create_booking st data now).1.total_amount = data.total_amount.getD 0 ∧
      (create_booking st data now).1.customer_email = data.customer_email.getD "" ∧
      (create_booking st data now).1.turf_id = data.turf_id ∧
      (create_booking st data now).1.date = data.date ∧
      (create_booking st data now).1.time_slot = data.time_slot ∧
      (create_booking st data now).1.customer_name = data.customer_name ∧
      (create_booking st data now).1.customer_phone = data.customer_phone ∧
      (create_booking st data now).1.created_at = now :=
  fun _ _ _ => ⟨rfl, rfl, rfl, rfl, rfl, rfl, rfl, rfl, rfl, rfl, rfl, rfl, rfl⟩

/-- C6: when a booking with the id exists, `cancel_booking` flips its status
to `"cancelled"`, persists, and returns true; when none exists it returns
false and the full state (in-memory and persisted) is byte-for-byte the old
one — the outcome is signalled only through the boolean. -/
theorem C6_cancel_booking_bool_outcome :
    ∀ (st : DBState) (booking_id : String),
      ((st.data.bookings.all fun b => b.booking_id != booking_id) = true →
        cancel_booking st booking_id = (false, st)) ∧
      ((st.data.bookings.any fun b => b.booking_id == booking_id) = true →
        (cancel_booking st booking_id).1 = true ∧
        (cancel_booking st booking_id).2.disk = (cancel_booking st booking_id).2.data ∧
        ∃ b ∈ (cancel_booking st booking_id).2.data.bookings,
          b.booking_id = booking_id ∧ b.status = "cancelled") := by
  intro st booking_id
  constructor
  · intro hall
    have hnone : cancelFirst booking_id st.data.bookings = none := by
      rw [cancelFirst_none_iff]
      intro b hb
      simpa using List.all_eq_true.mp hall b hb
    simp [cancel_booking, hnone]
  · intro hany
    obtain ⟨b, hb, hbid⟩ := List.any_eq_true.mp hany
    have hne : cancelFirst booking_id st.data.bookings ≠ none := by
      intro hnone
      exact (cancelFirst_none_iff booking_id st.data.bookings).mp hnone b hb
        (beq_iff_eq.mp hbid)
    obtain ⟨bs', hsome⟩ := Option.ne_none_iff_exists'.mp hne
    obtain ⟨l1, b0, l2, _, _, hb0, hbs'⟩ := cancelFirst_some booking_id _ bs' hsome
    refine ⟨by simp [cancel_booking, hsome], by simp [cancel_booking, hsome, save_data], ?_⟩
    refine ⟨{ b0 with status := "cancelled" }, ?_, by simpa using hb0, rfl⟩
    simp only [cancel_booking, hsome]
    rw [hbs']
    exact List.mem_append_right _ (List.mem_cons_self _ _)

/-- C6 witness: on a store holding only `BK0001`, cancelling `"BK0000"`
(unknown) returns false with the state untouched, and cancelling `"BK0001"`
returns true with a cancelled record present. -/
theorem C6_cancel_booking_bool_outcome_witness :
    cancel_booking sampleState1 "BK0000" = (false, sampleState1) ∧
    ((cancel_booking sampleState1 "BK0001").1 = true ∧
      (cancel_booking sampleState1 "BK0001").2.disk = (cancel_booking sampleState1 "BK0001").2.data ∧
      ∃ b ∈ (cancel_booking sampleState1 "BK0001").2.data.bookings,
        b.booking_id = "BK0001" ∧ b.status = "cancelled") :=
  ⟨(C6_cancel_booking_bool_outcome sampleState1 "BK0000").1 (by decide),
   (C6_cancel_booking_bool_outcome sampleState1 "BK0001").2 (by decide)⟩

/-- C10: cancelling an existing booking id (even an already-cancelled one)
returns true and rewrites exactly the first matching record's `status`; every
other field of that record, every other booking, the order and length of the
collection, and the turfs are untouched. -/
theorem C10_cancel_booking_frame :
    ∀ (st : DBState) (booking_id : String),
      (st.data.bookings.any fun b => b.booking_id == booking_id) = true →
      (cancel_booking st booking_id).1 = true ∧
      (cancel_booking st booking_id).2.data.turfs = st.data.turfs ∧
      ∃ l1 b0 l2,
        st.data.bookings = l1 ++ b0 :: l2 ∧
        (∀ x ∈ l1, x.booking_id ≠ booking_id) ∧
        b0.booking_id = booking_id ∧
        (cancel_booking st booking_id).2.data.bookings
          = l1 ++ { b0 with status := "cancelled" } :: l2 := by
  intro st booking_id hany
  obtain ⟨b, hb, hbid⟩ := List.any_eq_true.mp hany
  have hne : cancelFirst booking_id st.data.bookings ≠ none := by
    intro hnone
    exact (cancelFirst_none_iff booking_id st.data.bookings).mp hnone b hb
      (beq_iff_eq.mp hbid)
  obtain ⟨bs', hsome⟩ := Option.ne_none_iff_exists'.mp hne
  obtain ⟨l1, b0, l2, hbs, hl1, hb0, hbs'⟩ := cancelFirst_some booking_id _ bs' hsome
  exact ⟨by simp [cancel_booking, hsome], by simp [cancel_booking, hsome, save_data],
    l1, b0, l2, hbs, hl1, hb0, by simp [cancel_booking, hsome, save_data, hbs']⟩

/-- C10 witness: re-cancelling the already-cancelled `BK0001` still returns
true and leaves the collection as one Asha record with status `"cancelled"`. -/
theorem C10_cancel_booking_frame_witness :
    (cancel_booking sampleState2 "BK0001").1 = true ∧
    (cancel_booking sampleState2 "BK0001").2.data.turfs = sampleState2.data.turfs ∧
    ∃ l1 b0 l2,
      sampleState2.data.bookings = l1 ++ b0 :: l2 ∧
      (∀ x ∈ l1, x.booking_id ≠ "BK0001") ∧
      b0.booking_id = "BK0001" ∧
      (cancel_booking sampleState2 "BK0001").2.data.bookings
        = l1 ++ { b0 with status := "cancelled" } :: l2 :=
  C10_cancel_booking_frame sampleState2 "BK0001" (by decide)

theorem mem_booked_slots_iff (db : DBData) (turf_id date s : String) :
    s ∈ booked_slots db turf_id date ↔
      ∃ b ∈ db.bookings, b.turf_id = turf_id ∧ b.date = date ∧
        b.time_slot = s ∧ b.status = "confirmed" := by
  unfold booked_slots get_bookings_for_date
  simp only [List.mem_map, List.mem_filter, Bool.and_eq_true, beq_iff_eq]
  constructor
  · rintro ⟨b, ⟨⟨hb, ht, hd⟩, hc⟩, hs⟩
    exact ⟨b, hb, ht, hd, hs, hc⟩
  · rintro ⟨b, hb, ht, hd, hs, hc⟩
    exact ⟨b, ⟨⟨hb, ht, hd⟩, hc⟩, hs⟩

/-- C3: for an existing facility, the available-slots listing is a
subsequence of that facility's `available_hours` (same order) from which
exactly the slots carrying a confirmed booking on the queried date are
removed; cancelled bookings remove nothing. -/
theorem C3_available_slots_subsequence :
    ∀ (db : DBData) (turf_id date : String) (turf : Turf),
      get_turf_by_id db turf_id = some turf →
      (available_slots turf db date).Sublist turf.available_hours ∧
      ∀ s, s ∈ available_slots turf db date ↔
        (s ∈ turf.available_hours ∧
          ¬∃ b ∈ db.bookings, b.turf_id = turf_id ∧ b.date = date ∧
            b.time_slot = s ∧ b.status = "confirmed") := by
  intro db turf_id date turf hfind
  have hfind' : db.turfs.find? (fun t => t.id == turf_id) = some turf := hfind
  have hid : turf.id = turf_id := by
    have h := List.find?_some hfind'
    simpa using h
  refine ⟨List.filter_sublist _, fun s => ?_⟩
  unfold available_slots
  rw [List.mem_filter, hid]
  constructor
  · rintro ⟨hmem, hns⟩
    refine ⟨hmem, fun hex => ?_⟩
    rw [Bool.not_eq_true', ← Bool.not_eq_true] at hns
    exact hns (List.elem_iff.mpr ((mem_booked_slots_iff db turf_id date s).mpr hex))
  · rintro ⟨hmem, hnex⟩
    refine ⟨hmem, ?_⟩
    rw [Bool.not_eq_true', ← Bool.not_eq_true]
    intro hcontains
    exact hnex ((mem_booked_slots_iff db turf_id date s).mp (List.elem_iff.mp hcontains))

/-- C3 witness: on the store where `BK0001` holds 18:00 on 2024-06-01, the
listing for `turf_001` is a subsequence of the dummy turf's hours and 18:00
is exactly the slot filtered out. -/
theorem C3_available_slots_subsequence_witness :
    get_turf_by_id sampleState1.data "turf_001" = some dummyTurf ∧
    ((available_slots dummyTurf sampleState1.data "2024-06-01").Sublist
        dummyTurf.available_hours ∧
      ∀ s, s ∈ available_slots dummyTurf sampleState1.data "2024-06-01" ↔
        (s ∈ dummyTurf.available_hours ∧
          ¬∃ b ∈ sampleState1.data.bookings, b.turf_id = "turf_001" ∧
            b.date = "2024-06-01" ∧ b.time_slot = s ∧ b.status = "confirmed")) :=
  ⟨rfl, C3_available_slots_subsequence sampleState1.data "turf_001" "2024-06-01" dummyTurf rfl⟩

theorem cancelFirst_map_booking_id (booking_id : String) (bs bs' : List Booking)
    (h : cancelFirst booking_id bs = some bs') :
    bs'.map (fun b => b.booking_id) = bs.map (fun b => b.booking_id) := by
  obtain ⟨l1, b0, l2, rfl, _, _, rfl⟩ := cancelFirst_some booking_id bs bs' h
  simp

theorem erun_idsNumbered (ops : List EOp) :
    ∀ st : DBState, idsNumbered st.data.bookings → idsNumbered (erun st ops).data.bookings := by
  induction ops with
  | nil => exact fun st h => h
  | cons op rest ih =>
    intro st h
    cases op with
    | create d now =>
      show idsNumbered (erun (create_booking st d now).2 rest).data.bookings
      apply ih
      have hbs : (create_booking st d now).2.data.bookings
          = st.data.bookings ++ [(create_booking st d now).1] := rfl
      have hid : (create_booking st d now).1.booking_id
          = mkBookingId (st.data.bookings.length + 1) := rfl
      unfold idsNumbered at h ⊢
      rw [hbs, List.map_append, h, List.length_append]
      simp [List.range_succ, hid]
    | cancel booking_id =>
      show idsNumbered (erun (cancel_booking st booking_id).2 rest).data.bookings
      apply ih
      cases hc : cancelFirst booking_id st.data.bookings with
      | none => simpa [cancel_booking, hc] using h
      | some bs' =>
        have hm := cancelFirst_map_booking_id booking_id _ bs' hc
        have hl : bs'.length = st.data.bookings.length := by
          have := congrArg List.length hm
          simpa using this
        unfold idsNumbered at h ⊢
        simp only [cancel_booking, hc, save_data]
        rw [hm, hl, h]

/-- C4: the n-th booking ever created (1-based, cancelled ones counted) holds
id `BK` + zero-padded `n`: `create_booking` stamps sequence number
`(current total booking count) + 1`, and over every sequence of raw Engine
calls from the fresh store the stored ids are exactly
`BK0001, BK0002, ...` in creation order — strictly increasing, never reused,
with cancellation never freeing a sequence slot. -/
theorem C4_booking_id_assignment :
    (∀ (st : DBState) (data : BookingData) (now : String),
      (create_booking st data now).1.booking_id
        = mkBookingId (st.data.bookings.length + 1)) ∧
    (∀ ops : List EOp,
      (erun initialState ops).data.bookings.map (fun b => b.booking_id)
        = (List.range (erun initialState ops).data.bookings.length).map
            (fun i => mkBookingId (i + 1))) :=
  ⟨fun _ _ _ => rfl, fun ops => erun_idsNumbered ops initialState rfl⟩

theorem cancelFirst_append_of_fresh (booking_id : String) (l : List Booking) (b : Booking)
    (hl : ∀ x ∈ l, x.booking_id ≠ booking_id) (hb : b.booking_id = booking_id) :
    cancelFirst booking_id (l ++ [b]) = some (l ++ [{ b with status := "cancelled" }]) := by
  induction l with
  | nil => simp [cancelFirst, hb]
  | cons a rest ih =>
    have ha : a.booking_id ≠ booking_id := hl a (List.mem_cons_self _ _)
    simp only [List.cons_append, cancelFirst, List.append_eq]
    rw [if_neg (by simpa using ha),
      ih (fun x hx => hl x (List.mem_cons_of_mem _ hx))]
    rfl

/-- C7 counterexample: the claim quantifies over every state, but in a loaded
store holding one cancelled record with id `BK0002` (so no confirmed booking
for the `(turf_001, 2024-06-01, 18:00)` triple exists), creating a booking
for that triple issues the colliding id `BK0002`; cancelling that id reports
true yet flips only the first (old) record, so the slot stays unavailable. -/
theorem C7_cancel_after_create_counterexample :
    (oddState.data.bookings.all fun b =>
      !(b.turf_id == "turf_001" && b.date == "2024-06-01" && b.time_slot == "18:00"
        && b.status == "confirmed")) = true ∧
    (create_booking oddState sampleBookingData "now").1.booking_id = "BK0002" ∧
    check_availability (create_booking oddState sampleBookingData "now").2.data
      "turf_001" "2024-06-01" "18:00" = false ∧
    (cancel_booking (create_booking oddState sampleBookingData "now").2
        (create_booking oddState sampleBookingData "now").1.booking_id).1 = true ∧
    check_availability
      (cancel_booking (create_booking oddState sampleBookingData "now").2
          (create_booking oddState sampleBookingData "now").1.booking_id).2.data
      "turf_001" "2024-06-01" "18:00" = false := by
  refine ⟨by decide, by decide, by decide, by decide, by decide⟩

/-- C7 (amended): after `create_booking` for a triple the slot always reads
unavailable; and when additionally the issued id does not collide with any
id already stored (true in every store the Engine itself built) and no other
confirmed booking for the triple exists, cancelling the created booking makes
the slot available again. -/
theorem C7_create_then_cancel_availability :
    ∀ (st : DBState) (data : BookingData) (now : String),
      check_availability (create_booking st data now).2.data
        data.turf_id data.date data.time_slot = false ∧
      ((∀ b ∈ st.data.bookings, b.booking_id ≠ (create_booking st data now).1.booking_id) →
       (∀ b ∈ st.data.bookings, ¬(b.turf_id = data.turf_id ∧ b.date = data.date ∧
          b.time_slot = data.time_slot ∧ b.status = "confirmed")) →
       check_availability (cancel_booking (create_booking st data now).2
            (create_booking st data now).1.booking_id).2.data
          data.turf_id data.date data.time_slot = true) := by
  intro st data now
  have hbs : (create_booking st data now).2.data.bookings
      = st.data.bookings ++ [(create_booking st data now).1] := rfl
  constructor
  · rw [Bool.eq_false_iff]
    intro htrue
    rw [check_availability_iff] at htrue
    refine htrue (create_booking st data now).1 ?_ ⟨rfl, rfl, rfl, rfl⟩
    rw [hbs]
    exact List.mem_append_right _ (List.mem_cons_self _ _)
  · intro hfresh hnoconf
    have hc : cancelFirst (create_booking st data now).1.booking_id
        ((create_booking st data now).2.data.bookings)
        = some (st.data.bookings
            ++ [{ (create_booking st data now).1 with status := "cancelled" }]) := by
      rw [hbs]
      exact cancelFirst_append_of_fresh _ _ _ hfresh rfl
    simp only [cancel_booking, hc, save_data]
    rw [check_availability_iff]
    intro b hb hconf
    rcases List.mem_append.mp hb with hb' | hb'
    · exact hnoconf b hb' hconf
    · rw [List.mem_singleton] at hb'
      subst hb'
      have hx := hconf.2.2.2
      simp at hx

/-- C7 witness: from the seeded empty store, booking 18:00 on 2024-06-01
makes the slot unavailable, and cancelling the issued `BK0001` makes it
available again. -/
theorem C7_create_then_cancel_availability_witness :
    check_availability (create_booking initialState sampleBookingData "t").2.data
      sampleBookingData.turf_id sampleBookingData.date sampleBookingData.time_slot = false ∧
    check_availability (cancel_booking (create_booking initialState sampleBookingData "t").2
          (create_booking initialState sampleBookingData "t").1.booking_id).2.data
      sampleBookingData.turf_id sampleBookingData.date sampleBookingData.time_slot = true :=
  ⟨(C7_create_then_cancel_availability initialState sampleBookingData "t").1,
   (C7_create_then_cancel_availability initialState sampleBookingData "t").2
     (by intro b hb; simp [initialState, save_data] at hb)
     (by intro b hb; simp [initialState, save_data] at hb)⟩

theorem noDouble_create (st : DBState) (data : BookingData) (now : String)
    (havail : check_availability st.data data.turf_id data.date data.time_slot = true)
    (h : NoDoubleConfirmed st.data.bookings) :
    NoDoubleConfirmed (create_booking st data now).2.data.bookings := by
  have hbs : (create_booking st data now).2.data.bookings
      = st.data.bookings ++ [(create_booking st data now).1] := rfl
  rw [hbs]
  unfold NoDoubleConfirmed at h ⊢
  rw [List.pairwise_append]
  refine ⟨h, List.pairwise_singleton _ _, ?_⟩
  intro a ha b hb
  rw [List.mem_singleton] at hb
  subst hb
  intro hconf
  obtain ⟨ht, hd, hs, hca, _⟩ := hconf
  rw [check_availability_iff] at havail
  exact havail a ha ⟨ht, hd, hs, hca⟩

theorem noDouble_cancel (st : DBState) (booking_id : String)
    (h : NoDoubleConfirmed st.data.bookings) :
    NoDoubleConfirmed (cancel_booking st booking_id).2.data.bookings := by
  cases hc : cancelFirst booking_id st.data.bookings with
  | none => simpa [cancel_booking, hc] using h
  | some bs' =>
    obtain ⟨l1, b0, l2, hbs, _, _, rfl⟩ := cancelFirst_some booking_id _ bs' hc
    simp only [cancel_booking, hc, save_data]
    rw [hbs] at h
    unfold NoDoubleConfirmed at h ⊢
    rw [List.pairwise_append] at h ⊢
    obtain ⟨h1, h2, h12⟩ := h
    rw [List.pairwise_cons] at h2 ⊢
    refine ⟨h1, ⟨?_, h2.2⟩, ?_⟩
    · intro x _ hconf
      have hx := hconf.2.2.2.1
      simp at hx
    · intro a ha b hb
      rcases List.mem_cons.mp hb with rfl | hb'
      · intro hconf
        have hx := hconf.2.2.2.2
        simp at hx
      · exact h12 a ha b (List.mem_cons_of_mem _ hb')

theorem brun_noDouble (ops : List BOp) :
    ∀ st : DBState, NoDoubleConfirmed st.data.bookings →
      NoDoubleConfirmed (brun st ops).data.bookings := by
  induction ops with
  | nil => exact fun st h => h
  | cons op rest ih =>
    intro st h
    cases op with
    | book d now =>
      show NoDoubleConfirmed (brun (api_book st d now) rest).data.bookings
      apply ih
      unfold api_book
      cases hav : check_availability st.data d.turf_id d.date d.time_slot with
      | false => simpa [hav] using h
      | true =>
        rw [if_pos rfl]
        cases hfind : get_turf_by_id st.data d.turf_id with
        | none => simpa [hfind] using h
        | some turf =>
          simp only [hfind]
          exact noDouble_create st _ now hav h
    | cancel booking_id =>
      exact ih _ (noDouble_cancel st booking_id h)

/-- C1 counterexample: the invariant does not survive raw Engine call
sequences — two `create_booking` calls for the same
`(turf_001, 2024-06-01, 18:00)` triple from the fresh store leave two
bookings with status `"confirmed"` for that triple (`create_booking` itself
performs no availability check). -/
theorem C1_engine_double_booking_counterexample :
    ((erun initialState
        [EOp.create sampleBookingData "t1", EOp.create sampleBookingData "t2"]).data.bookings.countP
      (fun b => b.turf_id == "turf_001" && b.date == "2024-06-01" &&
        b.time_slot == "18:00" && b.status == "confirmed")) = 2 := by
  decide

/-- C1 (amended): the slot-uniqueness invariant — at most one `"confirmed"`
booking per `(turf_id, date, time_slot)` triple, cancelled bookings exempt
and retained — holds at every state reachable from the fresh store through
the HTTP boundary operations (`/api/book`, which rejects via
`check_availability` before creating, and `/api/cancel`); it is not preserved
by raw `create_booking` calls. -/
theorem C1_no_double_confirmed_via_boundary :
    ∀ ops : List BOp, NoDoubleConfirmed (brun initialState ops).data.bookings :=
  fun ops => brun_noDouble ops initialState List.Pairwise.nil

theorem get_availability_info_ne_empty (db : DBData) (today tomorrow : String) :
    get_availability_info db today tomorrow ≠ "" := by
  unfold get_availability_info
  split
  · decide
  · intro h
    have hl := congrArg String.length h
    simp only [String.length_append] at hl
    have h0 : ("**").length = 2 := rfl
    have hg : ("" : String).length = 0 := rfl
    omega

theorem get_all_bookings_info_ne_empty (db : DBData) :
    get_all_bookings_info db ≠ "" := by
  unfold get_all_bookings_info
  dsimp only
  split
  · decide
  · split
    · decide
    · intro h
      have hl := congrArg String.length h
      simp only [String.length_append] at hl
      have h0 : ("**Current Bookings:**\n\n").length = 23 := rfl
      have hg : ("" : String).length = 0 := rfl
      omega

theorem process_message_special (ast : AgentState) (llm : List Msg → Except String String)
    (today tomorrow user_message r : String)
    (hr : handle_special_commands ast.db.data today tomorrow user_message = some r)
    (hne : r ≠ "") :
    process_message ast llm today tomorrow user_message
      = (r, { ast with conversation_history := ast.conversation_history
            ++ [{ role := "user", content := user_message },
                { role := "assistant", content := r }] }) := by
  have htr : truthyReply (some r) = true := by simp [truthyReply, hne]
  simp only [process_message, hr, htr, Option.getD_some, if_pos]
  simp

/-- C8: a message whose lower-cased text contains one of the deterministic
intent phrases is answered without ever invoking the external completion
service: the result is the same for every completion function, exactly one
assistant turn is appended after the user turn, and the reply is the
deterministic report computed from the Engine's current data. -/
theorem C8_deterministic_intents_bypass_llm :
    ∀ (ast : AgentState) (today tomorrow user_message : String),
      ((containsSub "check availability" (toLowerStr user_message)
          || containsSub "available slots" (toLowerStr user_message))
        || (containsSub "show bookings" (toLowerStr user_message)
          || containsSub "view bookings" (toLowerStr user_message)
          || containsSub "my bookings" (toLowerStr user_message))) = true →
      ∀ llm llm2 : List Msg → Except String String,
        process_message ast llm today tomorrow user_message
          = process_message ast llm2 today tomorrow user_message ∧
        (process_message ast llm today tomorrow user_message).2.conversation_history
          = ast.conversation_history
            ++ [{ role := "user", content := user_message },
                { role := "assistant",
                  content := (process_message ast llm today tomorrow user_message).1 }] ∧
        ((containsSub "check availability" (toLowerStr user_message)
            || containsSub "available slots" (toLowerStr user_message)) = true →
          (process_message ast llm today tomorrow user_message).1
            = get_availability_info ast.db.data today tomorrow) ∧
        ((containsSub "check availability" (toLowerStr user_message)
            || containsSub "available slots" (toLowerStr user_message)) = false →
          (process_message ast llm today tomorrow user_message).1
            = get_all_bookings_info ast.db.data) := by
  intro ast today tomorrow msg hmatch llm llm2
  by_cases hA : (containsSub "check availability" (toLowerStr msg)
      || containsSub "available slots" (toLowerStr msg)) = true
  · have hr : handle_special_commands ast.db.data today tomorrow msg
        = some (get_availability_info ast.db.data today tomorrow) := by
      unfold handle_special_commands
      rw [if_pos hA]
    have h1 := process_message_special ast llm today tomorrow msg _ hr
      (get_availability_info_ne_empty _ _ _)
    have h2 := process_message_special ast llm2 today tomorrow msg _ hr
      (get_availability_info_ne_empty _ _ _)
    rw [h1, h2]
    exact ⟨rfl, rfl, fun _ => rfl,
      fun hF => absurd (hA.symm.trans hF) (by decide)⟩
  · have hA' : (containsSub "check availability" (toLowerStr msg)
        || containsSub "available slots" (toLowerStr msg)) = false :=
      Bool.eq_false_iff.mpr hA
    have hB : (containsSub "show bookings" (toLowerStr msg)
        || containsSub "view bookings" (toLowerStr msg)
        || containsSub "my bookings" (toLowerStr msg)) = true := by
      rcases Bool.or_eq_true_iff.mp hmatch with h | h
      · exact absurd h hA
      · exact h
    have hr : handle_special_commands ast.db.data today tomorrow msg
        = some (get_all_bookings_info ast.db.data) := by
      unfold handle_special_commands
      rw [if_neg (by simp [hA']), if_pos hB]
    have h1 := process_message_special ast llm today tomorrow msg _ hr
      (get_all_bookings_info_ne_empty _)
    have h2 := process_message_special ast llm2 today tomorrow msg _ hr
      (get_all_bookings_info_ne_empty _)
    rw [h1, h2]
    exact ⟨rfl, rfl, fun hT => absurd (hA'.symm.trans hT) (by decide), fun _ => rfl⟩

/-- C8 witness: the message "Check availability please" is answered
identically under a succeeding and a failing completion service, with the
reply equal to the availability report, and the transcript gaining exactly
the user turn plus one assistant turn. -/
theorem C8_deterministic_intents_bypass_llm_witness :
    process_message sampleAgentState llmOk "2024-06-01" "2024-06-02" "Check availability please"
      = process_message sampleAgentState llmErr "2024-06-01" "2024-06-02" "Check availability please" ∧
    (process_message sampleAgentState llmOk "2024-06-01" "2024-06-02" "Check availability please").1
      = get_availability_info sampleAgentState.db.data "2024-06-01" "2024-06-02" ∧
    (process_message sampleAgentState llmOk "2024-06-01" "2024-06-02" "Check availability please").2.conversation_history
      = sampleAgentState.conversation_history
        ++ [{ role := "user", content := "Check availability please" },
            { role := "assistant",
              content := (process_message sampleAgentState llmOk "2024-06-01" "2024-06-02" "Check availability please").1 }] :=
  ⟨((C8_deterministic_intents_bypass_llm sampleAgentState "2024-06-01" "2024-06-02"
      "Check availability please" (by decide)) llmOk llmErr).1,
   (((C8_deterministic_intents_bypass_llm sampleAgentState "2024-06-01" "2024-06-02"
      "Check availability please" (by decide)) llmOk llmErr).2.2.1 (by decide)),
   ((C8_deterministic_intents_bypass_llm sampleAgentState "2024-06-01" "2024-06-02"
      "Check availability please" (by decide)) llmOk llmErr).2.1⟩

/-- C9: when a message falls through to the external completion service and
that call fails with description `e`, `process_message` returns the apology
string embedding `e`, appends it as one assistant turn, and returns normally
(the error is absorbed; it is a total function of the failure, never a
propagated exception). -/
theorem C9_llm_error_absorbed :
    ∀ (ast : AgentState) (llm : List Msg → Except String String)
      (today tomorrow user_message e : String),
      truthyReply (handle_special_commands ast.db.data today tomorrow user_message) = false →
      llm (build_context { ast with conversation_history :=
          ast.conversation_history ++ [{ role := "user", content := user_message }] })
        = Except.error e →
      process_message ast llm today tomorrow user_message
        = ("I apologize, but I encountered an error: " ++ e ++ ". Please try again.",
           { ast with conversation_history := ast.conversation_history
              ++ [{ role := "user", content := user_message },
                  { role := "assistant",
                    content := "I apologize, but I encountered an error: " ++ e
                      ++ ". Please try again." }] }) := by
  intro ast llm today tomorrow msg e hfalse hllm
  simp only [process_message, hfalse, Bool.false_eq_true, if_false, hllm]
  simp

/-- C9 witness: the non-special message "Hello there" under the failing
completion service yields the apology embedding "boom" and one appended
assistant turn. -/
theorem C9_llm_error_absorbed_witness :
    process_message sampleAgentState llmErr "2024-06-01" "2024-06-02" "Hello there"
      = ("I apologize, but I encountered an error: " ++ "boom" ++ ". Please try again.",
         { sampleAgentState with conversation_history := sampleAgentState.conversation_history
            ++ [{ role := "user", content := "Hello there" },
                { role := "assistant",
                  content := "I apologize, but I encountered an error: " ++ "boom"
                    ++ ". Please try again." }] }) :=
  C9_llm_error_absorbed sampleAgentState llmErr "2024-06-01" "2024-06-02" "Hello there" "boom"
    (by decide) rfl
